import Mathlib

set_option maxRecDepth 100000

/-!
Verification development for the query-construction and result-caching core of
`src/app.py` (CSV Massive Data Analyzer).  The Python functions
`get_csv_files`, `extract_date_from_filename`, `get_columns_and_sample_data`,
`get_row_count`, `build_query`, `execute_query`, and the cache-manipulating
fragments of `main` (the run-query step, the clear-filters step and the
configuration fingerprint) are embedded as executable Lean definitions, and the
specified properties are settled as theorems about those definitions.

Modelling conventions:
- Python strings are Lean `String`s (lists of unicode characters); query text is
  reproduced byte-for-byte from the f-strings in the source, with literal braces
  written via escape codes.
- The `filters` dict is a `List (String × List String)` in insertion order
  (Python dicts preserve insertion order; keys are distinct).
- Python `sorted` is modelled by `List.insertionSort`, extensionally equal to
  any stable sort.  `sorted(filters.items())` compares `(key, value)` tuples;
  since keys of a dict are distinct the comparison is decided by the key alone,
  so sorting by key is faithful.
- `config_hash = str(current_config)` is modelled by the structured value
  itself: `str`/`repr` is injective on the dict of strings, tuples, bools,
  ints and `None` built in `main`, so equality of hashes coincides with
  equality of the structured configurations.
- The DuckDB connection is an abstract `engine` function returning `Except`:
  a raised exception is `Except.error`, a fetched value is `Except.ok`.
- A pandas DataFrame is its list of rows `List (List String)`; `df.empty`
  is `List.isEmpty`.
- The regex class `\d` is modelled as the ASCII digit test `Char.isDigit`;
  the filenames in scope use ASCII digits.
-/

/-- The single-quote character used by the SQL escaping in the source. -/
def quoteChar : Char := Char.ofNat 39

/-- Embeds `str(v).replace("'", "''")` from `build_query` / `get_row_count`
(lines 127 and 173): every single quote is doubled, all other characters kept. -/
def escChars : List Char → List Char
  | [] => []
  | c :: cs => if c == quoteChar then quoteChar :: quoteChar :: escChars cs else c :: escChars cs

/-- String-level wrapper for `escChars`. -/
def escape_value (s : String) : String := String.mk (escChars s.data)

/-- Reader for a SQL single-quoted string literal, applied to the characters
following the opening quote: `''` decodes to one quote, the first unpaired
quote closes the literal; returns the decoded value and the remaining input,
or `none` when the literal is unterminated. -/
def sqlParseLit : List Char → Option (List Char × List Char)
  | [] => none
  | c :: cs =>
    if c == quoteChar then
      match cs with
      | [] => some ([], [])
      | d :: ds =>
        if d == quoteChar then
          (sqlParseLit ds).map (fun r => (quoteChar :: r.1, r.2))
        else
          some ([], cs)
    else
      (sqlParseLit cs).map (fun r => (c :: r.1, r.2))

/-- Boolean test: does `hay` start with `needle`? -/
def startsWithSub : List Char → List Char → Bool
  | _, [] => true
  | [], _ :: _ => false
  | c :: cs, d :: ds => c == d && startsWithSub cs ds

/-- Boolean substring test on character lists. -/
def containsSub (needle : List Char) : List Char → Bool
  | [] => startsWithSub [] needle
  | c :: tl => startsWithSub (c :: tl) needle || containsSub needle tl

/-- Boolean substring test on strings. -/
def str_contains (hay needle : String) : Bool := containsSub needle.data hay.data

/-- Python truthiness of an optional string (`None` and `""` are falsy),
used for `date_range[0] and date_range[1]`. -/
def pyTruthy : Option String → Bool
  | none => false
  | some s => !(s == "")

/-- The backslash character. -/
def backslashChar : Char := Char.ofNat 92

/-- The forward-slash character. -/
def slashChar : Char := Char.ofNat 47

/-- Embeds `str(Path(folder_path)).replace('\\', '/')` (lines 105 and 143):
replacing a one-character pattern is a character map; `str ∘ Path` is the
identity on the already-normalized paths modelled here. -/
def normalized_path (s : String) : String :=
  String.mk (s.data.map (fun c => if c == backslashChar then slashChar else c))

/-- The date-range WHERE clause f-string shared by `get_row_count` (line 122)
and `build_query` (line 166). -/
def dateClauseText (a b : String) : String :=
  "regexp_extract(filename, '(\\d\x7b4\x7d-\\d\x7b2\x7d-\\d\x7b2\x7d)', 1) BETWEEN '" ++ a ++ "' AND '" ++ b ++ "'"

/-- Embeds `"', '".join(escaped_values)` (lines 128 and 174). -/
def values_str (values : List String) : String :=
  String.intercalate ("', '") (values.map escape_value)

/-- Embeds the value-filter clause f-string `f"{col} IN ('{values_str}')"`
(lines 129 and 175). -/
def value_clause (col : String) (values : List String) : String :=
  col ++ (" IN ('") ++ values_str values ++ ("')")

/-- The value-filter clauses accumulated by the `for col, values in
filters.items()` loop of `build_query` (lines 170-175): one clause per entry
with a non-empty value list, in insertion order. -/
def value_clauses (filters : List (String × List String)) : List String :=
  filters.filterMap (fun p => if p.2.isEmpty then none else some (value_clause p.1 p.2))

/-- The optional date-range clause of `build_query` (lines 164-167): emitted
only when both bounds are truthy. -/
def date_clause_opt (dr : Option String × Option String) : List String :=
  if pyTruthy dr.1 && pyTruthy dr.2 then
    [dateClauseText (dr.1.getD "") (dr.2.getD "")]
  else []

/-- The `where_clauses` list of `build_query` (lines 161-175). -/
def build_where_clauses (filters : List (String × List String))
    (dr : Option String × Option String) : List String :=
  date_clause_opt dr ++ value_clauses filters

/-- The value-filter clauses accumulated by the loop of `get_row_count`
(lines 125-129); the Python code is textually identical to the loop in
`build_query`, and is embedded separately so that their agreement is a
provable statement rather than an assumption. -/
def count_value_clauses (filters : List (String × List String)) : List String :=
  filters.filterMap (fun p => if p.2.isEmpty then none else some (value_clause p.1 p.2))

/-- The optional date-range clause of `get_row_count` (lines 120-123). -/
def count_date_clause_opt (dr : Option String × Option String) : List String :=
  if pyTruthy dr.1 && pyTruthy dr.2 then
    [dateClauseText (dr.1.getD "") (dr.2.getD "")]
  else []

/-- The `where_clauses` list of `get_row_count` (lines 118-129). -/
def count_where_clauses (filters : List (String × List String))
    (dr : Option String × Option String) : List String :=
  count_date_clause_opt dr ++ count_value_clauses filters

/-- Embeds `query += " WHERE " + " AND ".join(where_clauses)` guarded by
`if where_clauses:` (lines 131-132 and 177-178). -/
def where_suffix (cs : List String) : String :=
  if cs.isEmpty then "" else (" WHERE ") ++ String.intercalate (" AND ") cs

/-- The COUNT-mode base query f-string of `get_row_count` (lines 107-116),
reproduced byte-for-byte (trailing spaces included). -/
def count_base (folder : String) : String :=
  "\n        SELECT COUNT(*) as total\n        FROM read_csv('" ++ normalized_path folder ++
  "/*.csv', \n                      delim='|', \n                      header=true, \n                      union_by_name=true, \n                      encoding='latin-1',\n                      auto_detect=false,\n                      parallel=true)\n        "

/-- The full query text issued by `get_row_count` (base plus WHERE suffix). -/
def get_row_count_query (folder : String) (filters : List (String × List String))
    (dr : Option String × Option String) : String :=
  count_base folder ++ where_suffix (count_where_clauses filters dr)

/-- Embeds `get_row_count` (lines 102-138): the engine abstracts
`conn.execute(query).fetchone()`; a raised exception is `Except.error` and is
caught (the error is displayed and `0` returned); `result[0] if result else 0`
maps a fetched row to its count and a missing row to `0`. -/
def get_row_count (engine : String → Except String (Option Int)) (folder : String)
    (filters : List (String × List String)) (dr : Option String × Option String) : Int :=
  match engine (get_row_count_query folder filters dr) with
  | Except.error _ => 0
  | Except.ok none => 0
  | Except.ok (some n) => n

/-- The DATA-mode base query f-string of `build_query` (lines 146-159),
reproduced byte-for-byte (trailing spaces included). -/
def data_base (folder : String) (cols : List String) : String :=
  "\n    SELECT \n        regexp_extract(filename, '(\\d\x7b4\x7d-\\d\x7b2\x7d-\\d\x7b2\x7d)', 1) as fecha,\n        " ++
  String.intercalate (", ") cols ++
  "\n    FROM read_csv('" ++ normalized_path folder ++
  "/*.csv', \n                  delim='|', \n                  header=true, \n                  filename=true, \n                  union_by_name=true, \n                  encoding='latin-1',\n                  ignore_errors=true,\n                  auto_detect=false,\n                  parallel=true)\n    "

/-- Embeds `build_query` (lines 140-184): base query, WHERE clauses, and the
optional `USING SAMPLE` suffix.  Note the function takes no row limit. -/
def build_query (folder : String) (cols : List String)
    (filters : List (String × List String)) (dr : Option String × Option String)
    (use_sampling : Bool) (sample_size : Nat) : String :=
  data_base folder cols ++ where_suffix (build_where_clauses filters dr) ++
  (if use_sampling then (" USING SAMPLE ") ++ toString sample_size ++ (" ROWS") else "")

/-- The query text actually sent to the engine by `execute_query`
(lines 189-190): `if limit: query += f" LIMIT {limit}"` — the limit is
appended only when truthy (not `None`, not `0`). -/
def executed_text (q : String) (limit : Option Nat) : String :=
  match limit with
  | none => q
  | some l => if l == 0 then q else q ++ (" LIMIT ") ++ toString l

/-- Embeds `execute_query` (lines 186-195): on an engine exception the error
is displayed and `None` returned. -/
def execute_query (engine : String → Except String (List (List String)))
    (q : String) (limit : Option Nat) : Option (List (List String)) :=
  match engine (executed_text q limit) with
  | Except.ok df => some df
  | Except.error _ => none

/-- The `st.session_state` fields manipulated by the cache fragments of
`main` that this development verifies. -/
structure SessionState where
  filters : List (String × List String)
  date_range : Option String × Option String
  current_preset : Option String
  cached_results : Option (List (List String))
  cached_query : Option String
  last_config : Option String
  deriving DecidableEq

/-- Embeds the cache-update fragment of `main` (lines 456-464): when
`result_df is not None and not result_df.empty` all three cache fields are
replaced; otherwise `cached_results` is set to `None` (and an error shown),
leaving `cached_query` and `last_config` as they were. -/
def run_query_step (st : SessionState) (query config_hash : String)
    (result_df : Option (List (List String))) : SessionState :=
  match result_df with
  | some df =>
    if df.isEmpty then { st with cached_results := none }
    else { st with cached_results := some df, cached_query := some query,
                   last_config := some config_hash }
  | none => { st with cached_results := none }

/-- Embeds the Clear All Filters fragment of `main` (lines 373-379):
filters, date range, preset, cached results and last config are reset;
`cached_query` is not assigned. -/
def clear_filters_step (st : SessionState) : SessionState :=
  { st with filters := [], date_range := (none, none), current_preset := none,
            cached_results := none, last_config := none }

/-- Embeds `config_changed = (st.session_state.last_config != config_hash)`
(line 425): the staleness test of the result cache. -/
def config_changed (last_config : Option String) (config_hash : String) : Bool :=
  !(last_config == some config_hash)

/-- Python string comparison: lexicographic on the code-point sequences. -/
def strLe (a b : String) : Prop := a.data ≤ b.data

instance : DecidableRel strLe := fun a b => inferInstanceAs (Decidable (a.data ≤ b.data))

instance : IsTotal String strLe := ⟨fun a b => le_total a.data b.data⟩

instance : IsTrans String strLe := ⟨fun _ _ _ => le_trans⟩

/-- Key-order comparison on filter entries, deciding
`sorted(filters.items())`: Python compares `(key, value)` tuples, and dict
keys are distinct, so the key comparison always decides. -/
def pairKeyLe (a b : String × List String) : Prop := a.1.data ≤ b.1.data

instance : DecidableRel pairKeyLe := fun a b => inferInstanceAs (Decidable (a.1.data ≤ b.1.data))

instance : IsTotal (String × List String) pairKeyLe := ⟨fun a b => le_total a.1.data b.1.data⟩

instance : IsTrans (String × List String) pairKeyLe := ⟨fun _ _ _ => le_trans⟩

/-- Embeds `sorted(filters.items())` (line 416). -/
def sortPairs (l : List (String × List String)) : List (String × List String) :=
  List.insertionSort pairKeyLe l

/-- The `current_config` dict of `main` (lines 413-421), whose `str` is the
config hash; `str` is injective on these values, so the structured value
itself serves as the fingerprint. -/
structure Config where
  folder : String
  columns : List String
  filters_sorted : List (String × List String)
  date_range : Option String × Option String
  use_sampling : Bool
  sample_size : Option Nat
  row_limit : Nat
  deriving DecidableEq

/-- Embeds the construction of `current_config` / `config_hash`
(lines 412-422): the filters component is `str(sorted(filters.items()))`,
the sample size is recorded only when sampling is enabled. -/
def current_config (folder : String) (cols : List String)
    (filters : List (String × List String)) (dr : Option String × Option String)
    (us : Bool) (ss : Nat) (rl : Nat) : Config :=
  { folder := folder, columns := cols, filters_sorted := sortPairs filters,
    date_range := dr, use_sampling := us,
    sample_size := if us then some ss else none, row_limit := rl }

/-- A shard file: header plus data rows, as `pd.read_csv` exposes them. -/
structure CsvFile where
  header : List String
  rows : List (List String)
  deriving DecidableEq

/-- Suffix test on character lists, used to model the `*.csv` glob. -/
def endsWithSub (hay needle : List Char) : Bool :=
  startsWithSub hay.reverse needle.reverse

/-- Does a filename match the `*.csv` glob? -/
def ends_with_csv (n : String) : Bool := endsWithSub n.data ((".csv").data)

/-- Embeds `get_csv_files` (lines 55-64): the CSV names of the directory,
sorted (`sorted(path.glob("*.csv"))`; paths share the directory prefix, so
path order is filename order). -/
def get_csv_files (names : List String) : List String :=
  List.insertionSort strLe (names.filter (fun n => ends_with_csv n))

/-- Embeds `get_columns_and_sample_data` (lines 74-90): with no CSV files it
returns `(None, None)`; otherwise it reads the first file of the sorted list
with `nrows=5` (header as columns, at most the first five rows as preview);
a read failure is caught and also yields `(None, None)`. -/
def get_columns_and_sample_data (names : List String) (read : String → Option CsvFile) :
    Option (List String) × Option (List (List String)) :=
  match get_csv_files names with
  | [] => (none, none)
  | f :: _ =>
    match read f with
    | none => (none, none)
    | some file => (some file.header, some (file.rows.take 5))

/-- The dash character of the date pattern. -/
def dashChar : Char := Char.ofNat 45

/-- Anchored match of the regex `(\d{4}-\d{2}-\d{2})` at the head of the
input: exactly ten characters, digits and dashes in the fixed positions. -/
def dateTok : List Char → Option (List Char)
  | a :: b :: c :: d :: e :: f :: g :: h :: i :: j :: _ =>
    if a.isDigit && b.isDigit && c.isDigit && d.isDigit && (e == dashChar) &&
       f.isDigit && g.isDigit && (h == dashChar) && i.isDigit && j.isDigit then
      some [a, b, c, d, e, f, g, h, i, j]
    else none
  | _ => none

/-- Left-to-right scan of `re.search`: the anchored pattern is tried at each
successive position, the first (leftmost) match wins. -/
def searchDate : List Char → Option (List Char)
  | [] => none
  | c :: cs =>
    match dateTok (c :: cs) with
    | some m => some m
    | none => searchDate cs

/-- Embeds `extract_date_from_filename` (lines 66-72):
`re.search(r'(\d{4}-\d{2}-\d{2})', str(filename))`, returning the matched
group or `None`. -/
def extract_date_from_filename (s : String) : Option String :=
  (searchDate s.data).map (fun l => String.mk l)

/-- C1: the claim states that a failed execution attempt leaves the Result
Cache entirely untouched.  Counterexample: a state holding a cached result
loses it — the run-query fragment of `main` (line 463) assigns
`st.session_state.cached_results = None` on the failure branch. -/
theorem c1_counterexample :
    (run_query_step
      { filters := [], date_range := (none, none), current_preset := none,
        cached_results := some [["1"]], cached_query := some ("q0"),
        last_config := some ("c0") } ("q1") ("c1") none).cached_results ≠
    ({ filters := [], date_range := (none, none), current_preset := none,
        cached_results := some [["1"]], cached_query := some ("q0"),
        last_config := some ("c0") } : SessionState).cached_results := by
  decide

/-- C1 amended: on a failed execution attempt (the engine raises, so
`execute_query` returns no result), the stored query text and stored
fingerprint are left exactly as they were, but the cached result set is
cleared to empty. -/
theorem c1_failed_execution_effect (st : SessionState) (q c : String) :
    (run_query_step st q c none).cached_results = none ∧
    (run_query_step st q c none).cached_query = st.cached_query ∧
    (run_query_step st q c none).last_config = st.last_config ∧
    (run_query_step st q c none).filters = st.filters ∧
    (run_query_step st q c none).date_range = st.date_range :=
  ⟨rfl, rfl, rfl, rfl, rfl⟩

/-- C5: the query text returned by `build_query` never carries a row limit
(the builder does not even receive one); `execute_query` appends the
`LIMIT` clause to the built text at execution time, and when sampling is
enabled the `USING SAMPLE` clause sits at the end of the built text, hence
before the appended `LIMIT` clause in the executed text. -/
theorem c5_limit_appended_at_execution (folder : String) (cols : List String)
    (filters : List (String × List String)) (dr : Option String × Option String)
    (n l : Nat) (hl : 0 < l) :
    executed_text (build_query folder cols filters dr false n) (some l)
      = build_query folder cols filters dr false n ++ (" LIMIT ") ++ toString l ∧
    executed_text (build_query folder cols filters dr true n) (some l)
      = build_query folder cols filters dr false n ++ (" USING SAMPLE ") ++ toString n
        ++ (" ROWS") ++ (" LIMIT ") ++ toString l := by
  have hne : l ≠ 0 := by omega
  constructor
  · simp [executed_text, hne]
  · simp [executed_text, hne, build_query, String.append_assoc]

/-- C5 witness at a concrete configuration. -/
theorem c5_limit_appended_at_execution_witness :
    executed_text (build_query ("/data") ["id"] [] (none, none) false 100) (some 50)
      = build_query ("/data") ["id"] [] (none, none) false 100 ++ (" LIMIT ") ++ toString 50 ∧
    executed_text (build_query ("/data") ["id"] [] (none, none) true 100) (some 50)
      = build_query ("/data") ["id"] [] (none, none) false 100 ++ (" USING SAMPLE ")
        ++ toString 100 ++ (" ROWS") ++ (" LIMIT ") ++ toString 50 :=
  c5_limit_appended_at_execution ("/data") ["id"] [] (none, none) 100 50 (by decide)

/-- C6: the claim states that the clear-filters action discards the stored
fingerprint, stored query text and stored result.  Counterexample: the
Clear All Filters fragment of `main` (lines 373-379) never assigns
`st.session_state.cached_query`, so the stored query text survives. -/
theorem c6_counterexample :
    (clear_filters_step
      { filters := [("region", ["EU"])], date_range := (none, none),
        current_preset := none, cached_results := some [["1"]],
        cached_query := some ("q0"), last_config := some ("c0") }).cached_query ≠ none := by
  decide

/-- C6 amended: the clear-filters action discards the stored result set and
the stored fingerprint (and resets filters, date range and preset), after
which the staleness check reports `true` for every current fingerprint; the
stored query text, however, is retained unchanged. -/
theorem c6_clear_filters_effect (st : SessionState) (fp : String) :
    (clear_filters_step st).cached_results = none ∧
    (clear_filters_step st).last_config = none ∧
    (clear_filters_step st).filters = [] ∧
    (clear_filters_step st).date_range = (none, none) ∧
    (clear_filters_step st).cached_query = st.cached_query ∧
    config_changed (clear_filters_step st).last_config fp = true :=
  ⟨rfl, rfl, rfl, rfl, rfl, rfl⟩

/-- C8: the claim states that a failing count query degrades to an advisory
"unknown" value.  Counterexample: `get_row_count` (lines 136-138) returns
the integer `0` on failure — the very value a successful count of an empty
source returns — so there is no distinguished unknown marker. -/
theorem c8_counterexample :
    get_row_count (fun _ => Except.error ("disk failure")) ("/data") [] (none, none) = 0 ∧
    get_row_count (fun _ => Except.ok (some 0)) ("/data") [] (none, none) = 0 :=
  ⟨rfl, rfl⟩

/-- C8 amended: the row-count probe is a total function (an engine exception
is caught, never propagated), its result is non-negative whenever the engine
reports non-negative counts, and on an engine failure it returns `0` (after
displaying the error) rather than raising. -/
theorem c8_probe_total_nonneg (engine : String → Except String (Option Int))
    (folder : String) (filters : List (String × List String))
    (dr : Option String × Option String)
    (h : ∀ q n, engine q = Except.ok (some n) → 0 ≤ n) :
    0 ≤ get_row_count engine folder filters dr ∧
    (∀ e, engine (get_row_count_query folder filters dr) = Except.error e →
      get_row_count engine folder filters dr = 0) := by
  constructor
  · cases he : engine (get_row_count_query folder filters dr) with
    | error e => simp [get_row_count, he]
    | ok o =>
      cases o with
      | none => simp [get_row_count, he]
      | some n => simpa [get_row_count, he] using h _ n he
  · intro e he
    simp [get_row_count, he]

/-- C8 witness at a concrete engine. -/
theorem c8_probe_total_nonneg_witness :
    0 ≤ get_row_count (fun _ => Except.ok (some 3)) ("/data") [] (none, none) ∧
    (∀ e, (fun _ => (Except.ok (some 3) : Except String (Option Int)))
        (get_row_count_query ("/data") [] (none, none)) = Except.error e →
      get_row_count (fun _ => Except.ok (some 3)) ("/data") [] (none, none) = 0) :=
  c8_probe_total_nonneg (fun _ => Except.ok (some 3)) ("/data") [] (none, none)
    (by intro q n hq; simp at hq; omega)

/-- C4: the claim states that the COUNT-mode query reads the source with the
same options as the DATA-mode query, including malformed-row tolerance and
the filename column.  Counterexample: at a concrete input the DATA-mode
query text carries `ignore_errors=true` and `filename=true` while the
COUNT-mode query text carries neither (`get_row_count`, lines 107-116,
versus `build_query`, lines 146-159). -/
theorem c4_counterexample :
    str_contains (build_query ("/data") ["id"] [] (none, none) false 100000)
      ("ignore_errors=true") = true ∧
    str_contains (get_row_count_query ("/data") [] (none, none))
      ("ignore_errors=true") = false ∧
    str_contains (build_query ("/data") ["id"] [] (none, none) false 100000)
      ("filename=true") = true ∧
    str_contains (get_row_count_query ("/data") [] (none, none))
      ("filename=true") = false := by
  refine ⟨by decide, by decide, by decide, by decide⟩

/-- C4 amended: for every source location, filter set and date range the
COUNT-mode query contains exactly the same WHERE clauses as the DATA-mode
query (the two clause builders agree), and both share the explicit
delimiter, explicit encoding and union-by-name options; the COUNT-mode
query, however, omits the `ignore_errors=true` and `filename=true` read
options that the DATA-mode query carries. -/
theorem c4_count_vs_data_query (folder : String) (cols : List String)
    (filters : List (String × List String)) (dr : Option String × Option String)
    (n : Nat) :
    count_where_clauses filters dr = build_where_clauses filters dr ∧
    get_row_count_query folder filters dr
      = count_base folder ++ where_suffix (build_where_clauses filters dr) ∧
    build_query folder cols filters dr false n
      = data_base folder cols ++ where_suffix (build_where_clauses filters dr) ∧
    str_contains (get_row_count_query ("/data") [] (none, none)) ("delim='|'") = true ∧
    str_contains (get_row_count_query ("/data") [] (none, none)) ("encoding='latin-1'") = true ∧
    str_contains (get_row_count_query ("/data") [] (none, none)) ("union_by_name=true") = true := by
  refine ⟨rfl, rfl, ?_, by decide, by decide, by decide⟩
  simp [build_query]

/-- C7: a Filter State with `date_range = (None, None)` produces query text
with no date-range clause; a state with exactly one bound set behaves
identically; only when both bounds are present does the clause list start
with the inclusive `BETWEEN` clause on the filename-derived date. -/
theorem c7_date_range_clause (folder : String) (cols : List String)
    (filters : List (String × List String)) (us : Bool) (n : Nat) (a b : String)
    (ha : a ≠ "") (hb : b ≠ "") :
    build_where_clauses filters (none, none) = value_clauses filters ∧
    build_where_clauses filters (some a, none) = value_clauses filters ∧
    build_where_clauses filters (none, some b) = value_clauses filters ∧
    build_query folder cols filters (some a, none) us n
      = build_query folder cols filters (none, none) us n ∧
    build_query folder cols filters (none, some b) us n
      = build_query folder cols filters (none, none) us n ∧
    build_where_clauses filters (some a, some b)
      = dateClauseText a b :: value_clauses filters := by
  refine ⟨?_, ?_, ?_, ?_, ?_, ?_⟩
  · simp [build_where_clauses, date_clause_opt, pyTruthy]
  · simp [build_where_clauses, date_clause_opt, pyTruthy]
  · simp [build_where_clauses, date_clause_opt, pyTruthy]
  · simp [build_query, build_where_clauses, date_clause_opt, pyTruthy]
  · simp [build_query, build_where_clauses, date_clause_opt, pyTruthy]
  · simp [build_where_clauses, date_clause_opt, pyTruthy, ha, hb]

/-- C7 witness at concrete bounds. -/
theorem c7_date_range_clause_witness :
    build_where_clauses [("region", ["EU"])] (none, none)
      = value_clauses [("region", ["EU"])] ∧
    build_where_clauses [("region", ["EU"])] (some ("2021-01-01"), none)
      = value_clauses [("region", ["EU"])] ∧
    build_where_clauses [("region", ["EU"])] (none, some ("2021-01-02"))
      = value_clauses [("region", ["EU"])] ∧
    build_query ("/data") ["id"] [("region", ["EU"])] (some ("2021-01-01"), none) false 100
      = build_query ("/data") ["id"] [("region", ["EU"])] (none, none) false 100 ∧
    build_query ("/data") ["id"] [("region", ["EU"])] (none, some ("2021-01-02")) false 100
      = build_query ("/data") ["id"] [("region", ["EU"])] (none, none) false 100 ∧
    build_where_clauses [("region", ["EU"])] (some ("2021-01-01"), some ("2021-01-02"))
      = dateClauseText ("2021-01-01") ("2021-01-02") :: value_clauses [("region", ["EU"])] :=
  c7_date_range_clause ("/data") ["id"] [("region", ["EU"])] false 100
    ("2021-01-01") ("2021-01-02") (by decide) (by decide)

/-- Auxiliary round-trip lemma for the escaping discipline: reading a SQL
literal whose body is the escaped value recovers the value exactly and stops
at the closing quote, provided the text after the closing quote does not
itself begin with a quote (in the generated `IN` clauses it begins with `,`
or `)`). -/
theorem sqlParseLit_escChars (v : List Char) :
    ∀ rest : List Char, rest.head? ≠ some quoteChar →
      sqlParseLit (escChars v ++ quoteChar :: rest) = some (v, rest) := by
  induction v with
  | nil =>
    intro rest h
    cases rest with
    | nil => simp [escChars, sqlParseLit]
    | cons d ds =>
      have hd : (d == quoteChar) = false := by
        have hne : d ≠ quoteChar := by
          intro he
          exact h (by simp [List.head?, he])
        simp [hne]
      simp [escChars, sqlParseLit, hd]
  | cons x xs ih =>
    intro rest h
    by_cases hx : x = quoteChar
    · subst hx
      have he : escChars (quoteChar :: xs) = quoteChar :: quoteChar :: escChars xs := by
        simp [escChars]
      rw [he, List.cons_append, List.cons_append, sqlParseLit.eq_def]
      simp [ih rest h]
    · have hx2 : (x == quoteChar) = false := by simp [hx]
      have he : escChars (x :: xs) = x :: escChars xs := by
        simp [escChars, hx2]
      rw [he, List.cons_append, sqlParseLit.eq_def]
      simp [hx2, ih rest h]

/-- C3: the value placed in a generated `IN` clause is the original literal
with every embedded quote doubled, and parsing that literal back (SQL
quoting rules) recovers exactly the original value — escaping round-trips.
The side condition on `rest` holds for the generated clauses, whose literals
are followed by `,` or `)`. -/
theorem c3_escaping_roundtrip (col v : String) (rest : List Char)
    (h : rest.head? ≠ some quoteChar) :
    value_clause col [v] = col ++ (" IN ('") ++ escape_value v ++ ("')") ∧
    sqlParseLit (escChars v.data ++ quoteChar :: rest) = some (v.data, rest) := by
  constructor
  · rfl
  · exact sqlParseLit_escChars v.data rest h

/-- C3 witness: a value containing an embedded quote, followed by the `')`
that closes its clause. -/
theorem c3_escaping_roundtrip_witness :
    value_clause ("name") ["O'Brien"]
      = ("name") ++ (" IN ('") ++ escape_value ("O'Brien") ++ ("')") ∧
    sqlParseLit (escChars (("O'Brien").data) ++ quoteChar :: (")").data)
      = some ((("O'Brien").data), ((")").data)) :=
  c3_escaping_roundtrip ("name") ("O'Brien") ((")").data) (by decide)

/-- C2: the claim states the fingerprint is invariant under reordering of the
values inside one value-filter entry.  Counterexample: `config_hash` uses
`str(sorted(filters.items()))` (line 416), which sorts the entries by key but
keeps each entry's value list in its stored order, so swapping `["EU", "US"]`
to `["US", "EU"]` changes the fingerprint. -/
theorem c2_counterexample :
    current_config ("/data") ["region"] [("region", ["EU", "US"])] (none, none)
        false 100000 50000 ≠
    current_config ("/data") ["region"] [("region", ["US", "EU"])] (none, none)
        false 100000 50000 := by
  decide

/-- Two lists of filter entries that are permutations of one another and both
strictly sorted on their keys are equal. -/
theorem eq_of_perm_of_keyStrictSorted {l1 l2 : List (String × List String)}
    (hp : l1.Perm l2)
    (h1 : l1.Pairwise (fun a b => a.1.data < b.1.data))
    (h2 : l2.Pairwise (fun a b => a.1.data < b.1.data)) : l1 = l2 := by
  haveI : IsAntisymm (String × List String) (fun a b => a.1.data < b.1.data ∨ a = b) := by
    constructor
    intro a b hab hba
    rcases hab with h | h
    · rcases hba with h2 | h2
      · exact absurd h2 (lt_asymm h)
      · exact h2.symm
    · exact h
  exact List.eq_of_perm_of_sorted (r := fun a b => a.1.data < b.1.data ∨ a = b) hp
    (List.Pairwise.imp Or.inl h1) (List.Pairwise.imp Or.inl h2)

/-- Sorting filter entries whose keys are distinct yields a list strictly
sorted on the keys. -/
theorem sortPairs_pairwise_strict (l : List (String × List String))
    (hnd : (l.map Prod.fst).Nodup) :
    (sortPairs l).Pairwise (fun a b => a.1.data < b.1.data) := by
  have hs : (sortPairs l).Pairwise pairKeyLe := List.sorted_insertionSort pairKeyLe l
  have hperm : (sortPairs l).Perm l := List.perm_insertionSort pairKeyLe l
  have hnd2 : ((sortPairs l).map Prod.fst).Nodup := ((hperm.map Prod.fst).nodup_iff).mpr hnd
  have hne : (sortPairs l).Pairwise (fun a b => a.1 ≠ b.1) := (List.pairwise_map).mp hnd2
  refine (hs.and hne).imp ?_
  intro a b hab
  refine lt_of_le_of_ne hab.1 ?_
  intro hda
  apply hab.2
  have ha : String.mk a.1.data = String.mk b.1.data := congrArg String.mk hda
  simpa using ha

/-- C2 amended: the fingerprint is invariant under reordering of the
`value_filters` entries themselves (the mapping's insertion order, keys being
distinct), but it is sensitive to the ordering of the values inside an
entry's value list. -/
theorem c2_entry_reorder_invariant (folder : String) (cols : List String)
    (f1 f2 : List (String × List String)) (dr : Option String × Option String)
    (us : Bool) (ss rl : Nat) (hperm : f1.Perm f2)
    (hnd : (f1.map Prod.fst).Nodup) :
    current_config folder cols f1 dr us ss rl = current_config folder cols f2 dr us ss rl := by
  have h2nd : (f2.map Prod.fst).Nodup := ((hperm.map Prod.fst).nodup_iff).mp hnd
  have hsp : sortPairs f1 = sortPairs f2 :=
    eq_of_perm_of_keyStrictSorted
      (((List.perm_insertionSort pairKeyLe f1).trans hperm).trans
        (List.perm_insertionSort pairKeyLe f2).symm)
      (sortPairs_pairwise_strict f1 hnd) (sortPairs_pairwise_strict f2 h2nd)
  simp [current_config, hsp]

/-- C2 amended witness: swapping two whole entries leaves the fingerprint
unchanged. -/
theorem c2_entry_reorder_invariant_witness :
    current_config ("/data") ["a"] [("a", ["1"]), ("b", ["2"])] (none, none)
        false 100000 50000 =
    current_config ("/data") ["a"] [("b", ["2"]), ("a", ["1"])] (none, none)
        false 100000 50000 :=
  c2_entry_reorder_invariant ("/data") ["a"] [("a", ["1"]), ("b", ["2"])]
    [("b", ["2"]), ("a", ["1"])] (none, none) false 100000 50000
    (List.Perm.swap _ _ _) (by decide)

/-- The scan finds no match exactly when the anchored pattern matches at no
position of the input. -/
theorem searchDate_none_iff (cs : List Char) :
    searchDate cs = none ↔ ∀ i, dateTok (List.drop i cs) = none := by
  induction cs with
  | nil =>
    constructor
    · intro _ i
      simp [List.drop_nil, dateTok]
    · intro _
      rfl
  | cons c cs ih =>
    cases hd : dateTok (c :: cs) with
    | some m =>
      have h0 : searchDate (c :: cs)
          = match dateTok (c :: cs) with | some x => some x | none => searchDate cs := rfl
      have hs : searchDate (c :: cs) = some m := by
        rw [h0, hd]
      constructor
      · intro h
        rw [hs] at h
        cases h
      · intro h
        have h0 := h 0
        simp only [List.drop] at h0
        rw [hd] at h0
        cases h0
    | none =>
      have h0 : searchDate (c :: cs)
          = match dateTok (c :: cs) with | some x => some x | none => searchDate cs := rfl
      have hs : searchDate (c :: cs) = searchDate cs := by
        rw [h0, hd]
      rw [hs]
      constructor
      · intro h i
        cases i with
        | zero => simpa using hd
        | succ j =>
          have := (ih.mp h) j
          simpa [List.drop_succ_cons] using this
      · intro h
        apply ih.mpr
        intro j
        have := h (j + 1)
        simpa [List.drop_succ_cons] using this

/-- When the scan returns a match, the match occurs at some position and the
pattern matches at no earlier position (leftmost match wins). -/
theorem searchDate_some (cs : List Char) :
    ∀ m, searchDate cs = some m →
      ∃ i, dateTok (List.drop i cs) = some m ∧
        ∀ j, j < i → dateTok (List.drop j cs) = none := by
  induction cs with
  | nil =>
    intro m h
    cases h
  | cons c cs ih =>
    intro m h
    cases hd : dateTok (c :: cs) with
    | some m0 =>
      have h0 : searchDate (c :: cs)
          = match dateTok (c :: cs) with | some x => some x | none => searchDate cs := rfl
      have hs : searchDate (c :: cs) = some m0 := by
        rw [h0, hd]
      rw [hs] at h
      cases h
      refine ⟨0, by simpa using hd, ?_⟩
      intro j hj
      omega
    | none =>
      have h0 : searchDate (c :: cs)
          = match dateTok (c :: cs) with | some x => some x | none => searchDate cs := rfl
      have hs : searchDate (c :: cs) = searchDate cs := by
        rw [h0, hd]
      rw [hs] at h
      obtain ⟨i, h1, h2⟩ := ih m h
      refine ⟨i + 1, by simpa [List.drop_succ_cons] using h1, ?_⟩
      intro j hj
      cases j with
      | zero => simpa using hd
      | succ k =>
        have := h2 k (by omega)
        simpa [List.drop_succ_cons] using this

/-- C10: date extraction returns the leftmost substring matching the
four-digit/two-digit/two-digit dashed pattern when at least one position
matches (first match wins), and returns `None` exactly when no position of
the filename matches the pattern. -/
theorem c10_leftmost_date_extraction (s : String) :
    (extract_date_from_filename s = none ↔ ∀ i, dateTok (List.drop i s.data) = none) ∧
    (∀ d, extract_date_from_filename s = some d →
      ∃ i, dateTok (List.drop i s.data) = some d.data ∧
        ∀ j, j < i → dateTok (List.drop j s.data) = none) := by
  constructor
  · rw [show extract_date_from_filename s = (searchDate s.data).map (fun l => String.mk l) from rfl]
    rw [Option.map_eq_none']
    exact searchDate_none_iff s.data
  · intro d hd
    rw [show extract_date_from_filename s = (searchDate s.data).map (fun l => String.mk l) from rfl] at hd
    obtain ⟨m, hm, hmk⟩ := Option.map_eq_some'.mp hd
    subst hmk
    exact searchDate_some s.data m hm

/-- C10 witness: a filename with a date token (and digits elsewhere). -/
theorem c10_leftmost_date_extraction_witness :
    ∃ i, dateTok (List.drop i (("asg-2000-01-31.csv").data)) = some ((("2000-01-31")).data) ∧
      ∀ j, j < i → dateTok (List.drop j (("asg-2000-01-31.csv").data)) = none :=
  (c10_leftmost_date_extraction ("asg-2000-01-31.csv")).2 ("2000-01-31") (by decide)

/-- The head of the sorted CSV list is a CSV file of the directory and is
lexicographically least among the directory's CSV files. -/
theorem get_csv_files_head_min (names : List String) (f : String) (rest : List String)
    (h : get_csv_files names = f :: rest) :
    f ∈ names ∧ ends_with_csv f = true ∧
      ∀ g ∈ names, ends_with_csv g = true → f.data ≤ g.data := by
  have hperm : (get_csv_files names).Perm (names.filter (fun n => ends_with_csv n)) :=
    List.perm_insertionSort strLe (names.filter (fun n => ends_with_csv n))
  have hsorted : (get_csv_files names).Pairwise strLe :=
    List.sorted_insertionSort strLe (names.filter (fun n => ends_with_csv n))
  have hfmem : f ∈ names.filter (fun n => ends_with_csv n) := by
    refine hperm.mem_iff.mp ?_
    rw [h]
    exact List.mem_cons_self f rest
  have hfm := List.mem_filter.mp hfmem
  refine ⟨hfm.1, hfm.2, ?_⟩
  intro g hg hgcsv
  have hgmem : g ∈ get_csv_files names :=
    hperm.symm.mem_iff.mp (List.mem_filter.mpr ⟨hg, hgcsv⟩)
  rw [h] at hgmem
  rcases List.mem_cons.mp hgmem with he | ht
  · subst he
    exact le_refl _
  · rw [h] at hsorted
    exact List.rel_of_sorted_cons hsorted g ht

/-- C9: with no CSV file in the directory, Schema Discovery returns no
columns and no preview instead of raising; otherwise the representative
shard is the lexicographically first CSV filename of the directory and the
preview is the first (at most) five rows of that file. -/
theorem c9_schema_discovery (names : List String) (read : String → Option CsvFile) :
    (get_csv_files names = [] → get_columns_and_sample_data names read = (none, none)) ∧
    (∀ f rest, get_csv_files names = f :: rest →
      f ∈ names ∧ ends_with_csv f = true ∧
      (∀ g ∈ names, ends_with_csv g = true → f.data ≤ g.data) ∧
      (∀ file, read f = some file →
        get_columns_and_sample_data names read
          = (some file.header, some (file.rows.take 5)))) := by
  constructor
  · intro h
    unfold get_columns_and_sample_data
    rw [h]
  · intro f rest h
    obtain ⟨h1, h2, h3⟩ := get_csv_files_head_min names f rest h
    refine ⟨h1, h2, h3, ?_⟩
    intro file hf
    have h0 : get_columns_and_sample_data names read
        = match get_csv_files names with
          | [] => (none, none)
          | g :: _ =>
            match read g with
            | none => (none, none)
            | some fl => (some fl.header, some (List.take 5 fl.rows)) := rfl
    rw [h0, h]
    simp [hf]

/-- C9 witness: a directory listing with two shards and a stray text file;
the representative shard has six rows, of which the preview keeps five. -/
theorem c9_schema_discovery_witness :
    ("a-2021-01-01.csv") ∈ ["b-2021-01-02.csv", "notes.txt", "a-2021-01-01.csv"] ∧
    ends_with_csv ("a-2021-01-01.csv") = true ∧
    (∀ g ∈ ["b-2021-01-02.csv", "notes.txt", "a-2021-01-01.csv"],
      ends_with_csv g = true → ("a-2021-01-01.csv").data ≤ g.data) ∧
    (∀ file,
      (fun n => if n == "a-2021-01-01.csv" then
          some (⟨["id", "region"],
            [["1", "EU"], ["2", "US"], ["3", "EU"], ["4", "US"], ["5", "EU"], ["6", "US"]]⟩ : CsvFile)
        else none) ("a-2021-01-01.csv") = some file →
      get_columns_and_sample_data ["b-2021-01-02.csv", "notes.txt", "a-2021-01-01.csv"]
          (fun n => if n == "a-2021-01-01.csv" then
            some (⟨["id", "region"],
              [["1", "EU"], ["2", "US"], ["3", "EU"], ["4", "US"], ["5", "EU"], ["6", "US"]]⟩ : CsvFile)
          else none)
        = (some file.header, some (file.rows.take 5))) :=
  (c9_schema_discovery ["b-2021-01-02.csv", "notes.txt", "a-2021-01-01.csv"]
      (fun n => if n == "a-2021-01-01.csv" then
        some (⟨["id", "region"],
          [["1", "EU"], ["2", "US"], ["3", "EU"], ["4", "US"], ["5", "EU"], ["6", "US"]]⟩ : CsvFile)
      else none)).2
    ("a-2021-01-01.csv") ["b-2021-01-02.csv"] (by decide)
